import Mathlib

/-
Verification development for the HyacinthSat High-Altitude-Balloons flight
firmware (src/Balloon/src/main.cpp).  The firmware's command handlers,
data-link framing loop, relay task and link-arbiter enqueue functions are
shallowly embedded as executable Lean functions; each embedded definition
names the C function it is translated from.  Strings are modelled as
`List Char` (the `char` buffers of the source), machine integers as
`Int`/`Nat` (all values handled here are small and overflow-free), and the
FreeRTOS queues as Lean lists.
-/

namespace HAB

/-- A C string, modelled as its character list. -/
abbrev Str := List Char

/-- Convenience conversion from a Lean string literal to `Str`. -/
def str (s : String) : Str := s.data

/- ---------------------------------------------------------------------
   External enumerations.

   The `framesize_t` values come from the external esp32-camera library
   header (out of scope for the repository per the spec, consumed as an
   external collaborator); only their relative order is used by the
   firmware (`temp_config.cameraImageSize > FRAMESIZE_SVGA`).
   --------------------------------------------------------------------- -/

/-- esp32-camera `FRAMESIZE_QVGA` (320x240). -/
def FRAMESIZE_QVGA : Nat := 5

/-- esp32-camera `FRAMESIZE_VGA` (640x480). -/
def FRAMESIZE_VGA : Nat := 8

/-- esp32-camera `FRAMESIZE_SVGA` (800x600), the mid-tier threshold. -/
def FRAMESIZE_SVGA : Nat := 9

/-- esp32-camera `FRAMESIZE_XGA` (1024x768). -/
def FRAMESIZE_XGA : Nat := 10

/-- esp32-camera `FRAMESIZE_SXGA` (1280x1024). -/
def FRAMESIZE_SXGA : Nat := 12

/-- esp32-camera `FRAMESIZE_FHD` (1920x1080). -/
def FRAMESIZE_FHD : Nat := 14

/-- ssdv library packet type `SSDV_TYPE_NORMAL` (with FEC). -/
def SSDV_TYPE_NORMAL : Nat := 0

/-- ssdv library packet type `SSDV_TYPE_NOFEC` (without FEC). -/
def SSDV_TYPE_NOFEC : Nat := 1

/- ---------------------------------------------------------------------
   Data model: SystemConfig_t / SystemStatus_t, defined in config.h
   (staged in src/Balloon/Balloon.ino, lines 1013-1027) and initialized
   in main.cpp lines 29-43.  `framesize_t` and the `uint8_t` SSDV packet
   type are modelled as `Nat`, the `int` fields as `Int` (all values
   handled here are small and overflow-free).
   --------------------------------------------------------------------- -/

/-- `SystemConfig_t` (config.h lines 1013-1019 of Balloon.ino;
defaults at main.cpp lines 29-35): the mutable system configuration
record. -/
structure SystemConfig where
  cameraImageSize : Nat
  cameraImageQuality : Int
  ssdvPacketType : Nat
  ssdvEncodingQuality : Int
  ssdvCycleTimeSec : Int
deriving DecidableEq, Repr

/-- `SystemStatus_t` (config.h lines 1022-1027 of Balloon.ino;
defaults at main.cpp lines 38-43): the mutable system status record. -/
structure SystemStatus where
  isRelayEnabled : Bool
  isSsdvEnabled : Bool
  isBuzzerEnabled : Bool
  isSsdvTransmitting : Bool
deriving DecidableEq, Repr

/-- Boot-time configuration defaults (main.cpp lines 29-35). -/
def defaultConfig : SystemConfig :=
  { cameraImageSize := FRAMESIZE_VGA
    cameraImageQuality := 5
    ssdvPacketType := SSDV_TYPE_NOFEC
    ssdvEncodingQuality := 2
    ssdvCycleTimeSec := 60 }

/-- Boot-time status defaults (main.cpp lines 38-43). -/
def defaultStatus : SystemStatus :=
  { isRelayEnabled := true
    isSsdvEnabled := true
    isBuzzerEnabled := true
    isSsdvTransmitting := false }

/- ---------------------------------------------------------------------
   Status codes and emitted outputs.

   The `StatusCode_t` enum is defined in status_codes.h (staged in
   src/Balloon/Balloon.ino, lines 1104-1176) with pairwise-distinct
   hexadecimal values.  Only the identity of each code matters to the
   properties verified here, so the codes are embedded as an inductive
   enumeration carrying the same constructor names; derived decidable
   equality preserves exactly the distinctions the numeric values make.
   --------------------------------------------------------------------- -/

inductive StatusCode where
  | SYS_BOOTING
  | SYS_INIT_OK
  | SYS_INIT_FAIL
  | SYS_DEV_MODE_ENABLED
  | SYS_RESTARTING
  | CAM_INIT_START
  | CAM_INIT_OK
  | CAM_INIT_FAIL
  | CAM_CALIBRATE_START
  | CAM_CALIBRATE_OK
  | CAM_CALIBRATE_FAIL
  | CAM_RECONFIG_OK
  | CAM_RECONFIG_FAIL
  | CAM_RESTORE_DEFAULT_OK
  | CAM_RESTORE_DEFAULT_FAIL
  | CAM_CAPTURE_FAIL
  | GPS_INIT_START
  | GPS_INIT_OK
  | GPS_INIT_FAIL
  | ADC_SAMPLE_FAIL
  | SSDV_ENCODE_START
  | SSDV_ENCODE_END
  | SSDV_ENCODE_ERROR
  | SSDV_TX_BUFFER_FULL
  | CMD_ACK_GET_RELAY_STATUS
  | CMD_ACK_GET_SSDV_STATUS
  | CMD_ACK_GET_SSDV_CYCLE
  | CMD_ACK_GET_SSDV_TYPE
  | CMD_ACK_GET_SSDV_QUALITY
  | CMD_ACK_GET_CAM_SIZE
  | CMD_ACK_GET_CAM_QUALITY
  | CMD_ACK_RELAY_ON
  | CMD_ACK_RELAY_OFF
  | CMD_ACK_SSDV_ON
  | CMD_ACK_SSDV_OFF
  | CMD_ACK_CAM_SIZE
  | CMD_ACK_CAM_QUALITY
  | CMD_ACK_SSDV_TYPE
  | CMD_ACK_SSDV_QUALITY
  | CMD_ACK_SSDV_CYCLE
  | CMD_NACK_INVALID_GET
  | CMD_NACK_INVALID_CTL
  | CMD_NACK_INVALID_SET
  | CMD_NACK_INVALID_TYPE
  | CMD_NACK_FORMAT_ERROR
  | CMD_NACK_NO_VALUE
  | CMD_NACK_SSDV_BUSY
  | CMD_NACK_SET_CAM_QUAL
  | CMD_NACK_SET_CAM_QUAL_LOW
  | CMD_NACK_SET_SSDV_QUAL
  | CMD_NACK_SET_SSDV_CYCLE
  | RELAY_RATE_LIMITED
deriving DecidableEq, Repr

/-- The optional payload of a `Transmit_Status` call (main.cpp lines
205-228): absent, numeric, or boolean (the boolean overload formats the
value as "1"/"0"). -/
inductive StatusInfo where
  | none
  | int (n : Int)
  | bool (b : Bool)
deriving DecidableEq, Repr

/-- One observable emission of a task: either a `Transmit_Status` call
(status frame) or a `Transmit_Text` call with the already-formatted
content (before the link layer wraps it in the fixed
frame delimiters). -/
inductive Output where
  | status (c : StatusCode) (info : StatusInfo)
  | text (s : Str)
deriving DecidableEq, Repr

/- ---------------------------------------------------------------------
   C library helpers used by the command handlers.
   --------------------------------------------------------------------- -/

/-- Digit-consuming loop of `atoi`. -/
def atoiDigits : Str → Int → Int
  | c :: cs, acc =>
      if c.isDigit then atoiDigits cs (acc * 10 + ((c.toNat : Int) - 48)) else acc
  | [], acc => acc

/-- C `atoi`: skip leading whitespace, optional sign, then decimal
digits; 0 when no digits are present. -/
def atoi (s : Str) : Int :=
  let t := s.dropWhile (fun c => c = ' ' || c = '\t' || c = '\n' || c = '\r')
  match t with
  | '-' :: rest => - atoiDigits rest 0
  | '+' :: rest => atoiDigits rest 0
  | rest => atoiDigits rest 0

/-- Splitting loop for `strtok_r(buffer, ",")`: cut at every comma. -/
def splitFieldsAux : Str → Str → List Str
  | [], acc => [acc.reverse]
  | c :: cs, acc =>
      if c = ',' then acc.reverse :: splitFieldsAux cs []
      else splitFieldsAux cs (c :: acc)

/-- The token sequence produced by repeated `strtok_r(_, ",", _)` calls
(Process_Command, main.cpp lines 788-791): runs of delimiters count as
one separator and empty tokens are never returned. -/
def tokenize (s : Str) : List Str :=
  (splitFieldsAux s []).filter (fun t => t ≠ [])

/- ---------------------------------------------------------------------
   Camera reconfiguration (Reconfigure_Camera, main.cpp lines 346-359,
   calling Setup_Camera lines 273-320 and Camera_Calibrate lines
   323-343).  The hardware outcome (esp_camera_init / esp_camera_fb_get
   results) is a free input of the model.
   --------------------------------------------------------------------- -/

/-- Outcome of one `Reconfigure_Camera` call, abstracting the camera
hardware: success, `esp_camera_init` failure with an error code, or a
calibration capture failure. -/
inductive CamOutcome where
  | ok
  | initFail (err : Int)
  | calibrateFail
deriving DecidableEq, Repr

/-- `Reconfigure_Camera` (main.cpp lines 346-359): deinit, re-run
`Setup_Camera`, re-run `Camera_Calibrate`.  Returns (success, the status
frames emitted along the way, whether `Signal_Error` ran and cleared
`Initialization_Status`). -/
def reconfigureCamera : CamOutcome → Bool × List Output × Bool
  | .initFail err =>
      (false,
       [.status .CAM_INIT_START .none, .status .CAM_INIT_FAIL (.int err)],
       false)
  | .calibrateFail =>
      (false,
       [.status .CAM_INIT_START .none, .status .CAM_INIT_OK .none,
        .status .CAM_CALIBRATE_START .none, .status .CAM_CALIBRATE_FAIL .none],
       true)
  | .ok =>
      (true,
       [.status .CAM_INIT_START .none, .status .CAM_INIT_OK .none,
        .status .CAM_CALIBRATE_START .none, .status .CAM_CALIBRATE_OK .none],
       false)

/- ---------------------------------------------------------------------
   Command Task handlers (main.cpp lines 522-827).
   --------------------------------------------------------------------- -/

/-- Result of one command-handler run: final configuration and status,
the status/text frames emitted in order, whether `esp_restart` was
reached, and how many `Reconfigure_Camera` calls were made. -/
structure CmdResult where
  config : SystemConfig
  sysStatus : SystemStatus
  emits : List Output
  restart : Bool
  reconfigCalls : Nat
deriving DecidableEq, Repr

/-- `Handle_GET_Command` (main.cpp lines 522-557): read-only report of
live status/config fields. -/
def handleGetCommand (target : Str) (st : SystemStatus) (cfg : SystemConfig) :
    List Output :=
  if target = str "RELAY" then
    [.status .CMD_ACK_GET_RELAY_STATUS (.bool st.isRelayEnabled)]
  else if target = str "SSDV" then
    [.status .CMD_ACK_GET_SSDV_STATUS (.bool st.isSsdvEnabled),
     .status .CMD_ACK_GET_SSDV_CYCLE (.int cfg.ssdvCycleTimeSec),
     .status .CMD_ACK_GET_SSDV_TYPE (.int (cfg.ssdvPacketType : Int)),
     .status .CMD_ACK_GET_SSDV_QUALITY (.int cfg.ssdvEncodingQuality)]
  else if target = str "CAM" then
    [.status .CMD_ACK_GET_CAM_SIZE (.int (cfg.cameraImageSize : Int)),
     .status .CMD_ACK_GET_CAM_QUALITY (.int cfg.cameraImageQuality)]
  else
    [.status .CMD_NACK_INVALID_GET .none]

/-- `Handle_CTL_Command` (main.cpp lines 560-598): toggles the
relay/SSDV enable flags or performs a controlled restart.  Returns the
new status, emissions, and the restart flag. -/
def handleCtlCommand (target value : Str) (st : SystemStatus) :
    SystemStatus × List Output × Bool :=
  if target = str "SYS" ∧ value = str "REBOOT" then
    (st, [.status .SYS_RESTARTING .none], true)
  else if target = str "RELAY" then
    if value = str "ON" then
      ({ st with isRelayEnabled := true }, [.status .CMD_ACK_RELAY_ON .none], false)
    else if value = str "OFF" then
      ({ st with isRelayEnabled := false }, [.status .CMD_ACK_RELAY_OFF .none], false)
    else
      (st, [], false)
  else if target = str "SSDV" then
    if value = str "ON" then
      ({ st with isSsdvEnabled := true }, [.status .CMD_ACK_SSDV_ON .none], false)
    else if value = str "OFF" then
      ({ st with isSsdvEnabled := false }, [.status .CMD_ACK_SSDV_OFF .none], false)
    else
      (st, [], false)
  else
    (st, [.status .CMD_NACK_INVALID_CTL .none], false)

/-- The `cam_modes` table of `Handle_SET_Command` (main.cpp lines
622-631). -/
def cam_modes : List (Str × Nat) :=
  [(str "FHD", FRAMESIZE_FHD),
   (str "SXGA", FRAMESIZE_SXGA),
   (str "XGA", FRAMESIZE_XGA),
   (str "VGA", FRAMESIZE_VGA),
   (str "QVGA", FRAMESIZE_QVGA)]

/-- The validation half of the camera branch of `Handle_SET_Command`
(main.cpp lines 614-669): computes whether the configuration changed,
the candidate configuration, and the validation-phase emissions. -/
def camSetValidate (target value : Str) (cfg : SystemConfig) :
    Bool × SystemConfig × List Output :=
  if target = str "CAM_SIZE" then
    match cam_modes.find? (fun m => m.1 = value) with
    | some m =>
        (true, { cfg with cameraImageSize := m.2 },
         [.status .CMD_ACK_CAM_SIZE (.int (m.2 : Int))])
    | none =>
        (false, cfg, [.status .CMD_NACK_INVALID_TYPE .none])
  else
    let requested_quality := atoi value
    if requested_quality < 5 ∨ requested_quality > 20 then
      (false, cfg, [.status .CMD_NACK_SET_CAM_QUAL .none])
    else if cfg.cameraImageSize > FRAMESIZE_SVGA ∧ requested_quality < 10 then
      (false, cfg, [.status .CMD_NACK_SET_CAM_QUAL_LOW .none])
    else
      (true, { cfg with cameraImageQuality := requested_quality },
       [.status .CMD_ACK_CAM_QUALITY (.int requested_quality)])

/-- The reconfiguration half of the camera branch of
`Handle_SET_Command` (main.cpp lines 672-704): write the candidate
configuration, reconfigure, and on failure revert the camera fields to
the hard-coded defaults and retry once; a second failure announces a
fatal condition and restarts.  `oracle i` is the hardware outcome of the
(i+1)-th `Reconfigure_Camera` call. -/
def camReconfigPhase (temp : SystemConfig) (st : SystemStatus)
    (emitsV : List Output) (oracle : Nat → CamOutcome) : CmdResult :=
  let r1 := reconfigureCamera (oracle 0)
  if r1.1 then
    { config := temp, sysStatus := st,
      emits := emitsV ++ r1.2.1 ++ [.status .CAM_RECONFIG_OK .none],
      restart := false, reconfigCalls := 1 }
  else
    let defCfg := { temp with cameraImageSize := FRAMESIZE_VGA,
                              cameraImageQuality := 5 }
    let r2 := reconfigureCamera (oracle 1)
    if r2.1 then
      { config := defCfg, sysStatus := st,
        emits := emitsV ++ r1.2.1 ++ [.status .CAM_RECONFIG_FAIL .none] ++
                 r2.2.1 ++ [.status .CAM_RESTORE_DEFAULT_OK .none],
        restart := false, reconfigCalls := 2 }
    else
      { config := defCfg, sysStatus := st,
        emits := emitsV ++ r1.2.1 ++ [.status .CAM_RECONFIG_FAIL .none] ++
                 r2.2.1 ++ [.status .CAM_RESTORE_DEFAULT_FAIL .none,
                            .status .SYS_RESTARTING .none],
        restart := true, reconfigCalls := 2 }

/-- `Handle_SET_Command` (main.cpp lines 601-777): refuse everything
while an SSDV transmission is in progress; otherwise validate and apply
camera or SSDV parameter changes. -/
def handleSetCommand (target value : Str) (st : SystemStatus)
    (cfg : SystemConfig) (oracle : Nat → CamOutcome) : CmdResult :=
  if st.isSsdvTransmitting then
    { config := cfg, sysStatus := st,
      emits := [.status .CMD_NACK_SSDV_BUSY .none],
      restart := false, reconfigCalls := 0 }
  else if target = str "CAM_SIZE" ∨ target = str "CAM_QUALITY" then
    let v := camSetValidate target value cfg
    if v.1 then
      camReconfigPhase v.2.1 st v.2.2 oracle
    else
      { config := cfg, sysStatus := st, emits := v.2.2,
        restart := false, reconfigCalls := 0 }
  else if target = str "SSDV_TYPE" ∨ target = str "SSDV_QUALITY" ∨
          target = str "SSDV_CYCLE" then
    if target = str "SSDV_TYPE" then
      if value = str "NORMAL" then
        { config := { cfg with ssdvPacketType := SSDV_TYPE_NORMAL },
          sysStatus := st,
          emits := [.status .CMD_ACK_SSDV_TYPE (.int (SSDV_TYPE_NORMAL : Int))],
          restart := false, reconfigCalls := 0 }
      else if value = str "NOFEC" then
        { config := { cfg with ssdvPacketType := SSDV_TYPE_NOFEC },
          sysStatus := st,
          emits := [.status .CMD_ACK_SSDV_TYPE (.int (SSDV_TYPE_NOFEC : Int))],
          restart := false, reconfigCalls := 0 }
      else
        { config := cfg, sysStatus := st, emits := [],
          restart := false, reconfigCalls := 0 }
    else if target = str "SSDV_QUALITY" then
      let quality := atoi value
      if quality ≥ 0 ∧ quality ≤ 6 then
        { config := { cfg with ssdvEncodingQuality := quality },
          sysStatus := st,
          emits := [.status .CMD_ACK_SSDV_QUALITY (.int quality)],
          restart := false, reconfigCalls := 0 }
      else
        { config := cfg, sysStatus := st,
          emits := [.status .CMD_NACK_SET_SSDV_QUAL .none],
          restart := false, reconfigCalls := 0 }
    else
      let cycletime := atoi value
      if cycletime ≥ 10 ∧ cycletime ≤ 100 then
        { config := { cfg with ssdvCycleTimeSec := cycletime },
          sysStatus := st,
          emits := [.status .CMD_ACK_SSDV_CYCLE (.int cycletime)],
          restart := false, reconfigCalls := 0 }
      else
        { config := cfg, sysStatus := st,
          emits := [.status .CMD_NACK_SET_SSDV_CYCLE .none],
          restart := false, reconfigCalls := 0 }
  else
    { config := cfg, sysStatus := st,
      emits := [.status .CMD_NACK_INVALID_SET .none],
      restart := false, reconfigCalls := 0 }

/-- Dispatch body of `Process_Command` (main.cpp lines 793-827) over the
already-tokenized command fields. -/
def processTokens (toks : List Str) (st : SystemStatus) (cfg : SystemConfig)
    (oracle : Nat → CamOutcome) : CmdResult :=
  match toks.get? 0, toks.get? 1 with
  | some type, some target =>
    if type = str "GET" then
      { config := cfg, sysStatus := st,
        emits := handleGetCommand target st cfg,
        restart := false, reconfigCalls := 0 }
    else
      match toks.get? 2 with
      | none =>
          { config := cfg, sysStatus := st,
            emits := [.status .CMD_NACK_NO_VALUE .none],
            restart := false, reconfigCalls := 0 }
      | some value =>
        if type = str "CTL" then
          let r := handleCtlCommand target value st
          { config := cfg, sysStatus := r.1, emits := r.2.1,
            restart := r.2.2, reconfigCalls := 0 }
        else if type = str "SET" then
          handleSetCommand target value st cfg oracle
        else
          { config := cfg, sysStatus := st,
            emits := [.status .CMD_NACK_INVALID_TYPE .none],
            restart := false, reconfigCalls := 0 }
  | _, _ =>
      { config := cfg, sysStatus := st,
        emits := [.status .CMD_NACK_FORMAT_ERROR .none],
        restart := false, reconfigCalls := 0 }

/-- `Process_Command` (main.cpp lines 780-827): split the inbound frame
on commas into verb/target/value with `strtok_r` and dispatch. -/
def processCommand (cmd : Str) (st : SystemStatus) (cfg : SystemConfig)
    (oracle : Nat → CamOutcome) : CmdResult :=
  processTokens (tokenize cmd) st cfg oracle

/-- The three command shapes that `Process_Command` handles without any
response frame (main.cpp lines 571-592 and 719-734): `CTL RELAY` or
`CTL SSDV` with a value other than `ON`/`OFF`, and `SET SSDV_TYPE` with
a value other than `NORMAL`/`NOFEC`. -/
def silentlyIgnored (toks : List Str) : Prop :=
  (toks.get? 0 = some (str "CTL") ∧
   (toks.get? 1 = some (str "RELAY") ∨ toks.get? 1 = some (str "SSDV")) ∧
   ∃ v, toks.get? 2 = some v ∧ v ≠ str "ON" ∧ v ≠ str "OFF") ∨
  (toks.get? 0 = some (str "SET") ∧ toks.get? 1 = some (str "SSDV_TYPE") ∧
   ∃ v, toks.get? 2 = some v ∧ v ≠ str "NORMAL" ∧ v ≠ str "NOFEC")

/- ---------------------------------------------------------------------
   Data-Link Task receive path (V_Datalink_Task, main.cpp lines 447-491).
   --------------------------------------------------------------------- -/

/-- `#define MAX_RX_BUFF_SIZE 512` — the receive buffer size from
config.h (staged in src/Balloon/Balloon.ino, line 994). -/
def MAX_RX_BUFF_SIZE : Nat := 512

/-- One iteration of the receive loop of `V_Datalink_Task` (main.cpp
lines 448-491) on a single inbound byte: accumulate into the frame
buffer (discarding the in-progress frame when the buffer is full), and
on a newline classify the frame by its 2-byte prefix and forward it,
prefix stripped, to the command or relay queue.  Returns the new frame
buffer and the (at most one) frame forwarded to each queue.  The bounded
`xQueueSend` itself is modelled as always accepting (its result is
ignored by the source). -/
def datalinkByte (st : SystemStatus) (buf : Str) (c : Char) :
    Str × List Str × List Str :=
  if c ≠ '\n' then
    if buf.length < MAX_RX_BUFF_SIZE - 1 then (buf ++ [c], [], [])
    else ([], [], [])
  else
    if buf.length > 2 then
      if buf.take 2 = str "@@" then ([], [buf.drop 2], [])
      else if buf.take 2 = str "##" then
        if st.isRelayEnabled ∧ ¬ st.isSsdvTransmitting then
          ([], [], [buf.drop 2])
        else ([], [], [])
      else ([], [], [])
    else ([], [], [])

/-- The receive loop of `V_Datalink_Task` over a byte sequence: fold of
`datalinkByte`, concatenating the forwarded frames in order. -/
def datalinkBytes (st : SystemStatus) : Str → Str → Str × List Str × List Str
  | buf, [] => (buf, [], [])
  | buf, c :: cs =>
      let r := datalinkByte st buf c
      let rest := datalinkBytes st r.1 cs
      (rest.1, r.2.1 ++ rest.2.1, r.2.2 ++ rest.2.2)

/- ---------------------------------------------------------------------
   Link Arbiter (Transmit_Data / Transmit_Text, main.cpp lines 136-202).
   --------------------------------------------------------------------- -/

/-- Transmit queue capacity: `xQueueCreate(120, sizeof(RadioPacket_t))`
(main.cpp line 506). -/
def TX_QUEUE_CAPACITY : Nat := 120

/-- The per-attempt blocking timeout of the transmit enqueue:
`pdMS_TO_TICKS(500)` (main.cpp lines 153 and 158). -/
def TX_BLOCK_MS : Nat := 500

/-- `RadioPacket_t` (config.h lines 1038-1042 of Balloon.ino): payload
bytes (modelled as chars) plus the binary/text flag; the `length` field
is the payload length. -/
structure RadioPacket where
  data : Str
  is_binary : Bool
deriving DecidableEq, Repr

/-- FreeRTOS `xQueueSend` on the transmit queue: append at the tail when
a slot is free within the timeout, else fail. -/
def xQueueSendBack (q : List RadioPacket) (p : RadioPacket) :
    Option (List RadioPacket) :=
  if q.length < TX_QUEUE_CAPACITY then some (q ++ [p]) else none

/-- FreeRTOS `xQueueSendToFront` on the transmit queue: insert at the
head when a slot is free within the timeout, else fail. -/
def xQueueSendToFront (q : List RadioPacket) (p : RadioPacket) :
    Option (List RadioPacket) :=
  if q.length < TX_QUEUE_CAPACITY then some (p :: q) else none

/-- Result of a `Transmit_Data` call: the returned boolean, the transmit
queue contents immediately after a successful enqueue (`none` when the
call failed), and the number of enqueue attempts made. -/
structure TxResult where
  ok : Bool
  queueAfter : Option (List RadioPacket)
  attempts : Nat
deriving DecidableEq, Repr

/-- One enqueue attempt of `Transmit_Data` (main.cpp lines 151-161),
dispatching on `send_to_front`. -/
def txTry (p : RadioPacket) (send_to_front : Bool) (q : List RadioPacket) :
    Option (List RadioPacket) :=
  if send_to_front then xQueueSendToFront q p else xQueueSendBack q p

/-- The retry loop `for (int i = 0; i < 3; i++)` of `Transmit_Data`
(main.cpp lines 147-165), unrolled over its three fixed iterations.
Because the Data-Link Task drains the queue concurrently, the queue
contents observed by each attempt are a free input: `qs i` is the queue
observed by the (i+1)-th attempt. -/
def txLoop (p : RadioPacket) (send_to_front : Bool)
    (qs : Nat → List RadioPacket) : TxResult :=
  match txTry p send_to_front (qs 0) with
  | some q2 => ⟨true, some q2, 1⟩
  | none =>
    match txTry p send_to_front (qs 1) with
    | some q2 => ⟨true, some q2, 2⟩
    | none =>
      match txTry p send_to_front (qs 2) with
      | some q2 => ⟨true, some q2, 3⟩
      | none => ⟨false, none, 3⟩

/-- `Transmit_Data` (main.cpp lines 136-169): reject payloads larger
than the transmit buffer, then try to enqueue up to 3 times.
`maxTx` is the `MAX_TX_BUFF_SIZE` constant, `#define MAX_TX_BUFF_SIZE
512` in config.h (staged in src/Balloon/Balloon.ino, line 993); the
embedding is parametric in it, so every theorem below holds in
particular at 512. -/
def transmitData (maxTx : Nat) (data : Str) (is_binary send_to_front : Bool)
    (qs : Nat → List RadioPacket) : TxResult :=
  if data.length > maxTx then ⟨false, none, 0⟩
  else txLoop ⟨data, is_binary⟩ send_to_front qs

/-- The frame buffer assembled by `Transmit_Text` (main.cpp lines
174-191): fixed header `"** "`, the formatted content, trailer `" **"`,
each `snprintf`/`vsnprintf` step truncating to the buffer size (requires
`maxTx ≥ 4` for the header write to stay in bounds). -/
def transmitTextBuffer (maxTx : Nat) (content : Str) : Str :=
  let b2 := str "** " ++ content.take (maxTx - 4)
  b2 ++ (str " **").take (maxTx - 1 - b2.length)

/-- The outer retry loop `for (int i = 0; i < 3; i++)` of
`Transmit_Text` (main.cpp lines 194-199), unrolled over its three fixed
iterations: up to 3 `Transmit_Data` calls, always with
`is_binary = false` and `send_to_front = true`; after three failures the
final (failed) result is returned.  `qss i` is the queue-state sequence
observed by the (i+1)-th `Transmit_Data` call. -/
def ttLoop (maxTx : Nat) (buf : Str)
    (qss : Nat → Nat → List RadioPacket) : TxResult :=
  let r0 := transmitData maxTx buf false true (qss 0)
  if r0.ok then r0
  else
    let r1 := transmitData maxTx buf false true (qss 1)
    if r1.ok then r1
    else
      let r2 := transmitData maxTx buf false true (qss 2)
      if r2.ok then r2 else ⟨false, none, r2.attempts⟩

/-- `Transmit_Text` (main.cpp lines 172-202): build the delimited text
frame and submit it urgently (head insertion). -/
def transmitText (maxTx : Nat) (content : Str)
    (qss : Nat → Nat → List RadioPacket) : TxResult :=
  ttLoop maxTx (transmitTextBuffer maxTx content) qss

/- ---------------------------------------------------------------------
   Relay Task (V_Relay_Task, main.cpp lines 1206-1255).
   --------------------------------------------------------------------- -/

/-- The abuse-counter reset interval: `reset_interval_ms = 120000`
(main.cpp line 1216). -/
def RELAY_RESET_INTERVAL_MS : Nat := 120000

/-- The per-window relay ceiling: `relay_count_since_reset < 80`
(main.cpp line 1244). -/
def RELAY_WINDOW_LIMIT : Nat := 80

/-- The rolling abuse-counter state of `V_Relay_Task` (main.cpp lines
1213-1215): frames relayed since the last window reset, and whether the
one-per-window rate-limit notice has been emitted. -/
structure RelayState where
  count : Nat
  warned : Bool
deriving DecidableEq, Repr

/-- Handling of one dequeued relay frame (main.cpp lines 1242-1253):
under the ceiling, re-wrap with the relay header and submit as text;
over the ceiling, emit the rate-limit notice once per window. -/
def relayStep (st : RelayState) (frame : Str) : RelayState × List Output :=
  if st.count < RELAY_WINDOW_LIMIT then
    ({ st with count := st.count + 1 },
     [.text (str "##RELAY," ++ frame)])
  else if ¬ st.warned then
    ({ st with warned := true }, [.status .RELAY_RATE_LIMITED .none])
  else
    (st, [])

/-- The window reset of the abuse counter (main.cpp lines 1235-1239):
counter cleared, warning latch re-armed. -/
def relayWindowReset : RelayState := { count := 0, warned := false }

/-- The relay loop over the frames dequeued within a single rate window
(no reset in between): no frame is consumed while relaying is disabled
(main.cpp lines 1229-1232), otherwise each frame is handled by
`relayStep`. -/
def relayRun (status : SystemStatus) :
    RelayState → List Str → RelayState × List Output
  | st, [] => (st, [])
  | st, f :: rest =>
      if status.isRelayEnabled then
        let r := relayStep st f
        let rr := relayRun status r.1 rest
        (rr.1, r.2 ++ rr.2)
      else (st, [])

/- ---------------------------------------------------------------------
   Theorems.
   --------------------------------------------------------------------- -/

/-- C1: while `isSsdvTransmitting` is true, every SET command — any
target, any value, any camera-hardware outcome — leaves the
configuration (and status) unchanged, emits exactly the
`CMD_NACK_SSDV_BUSY` frame, does not restart, and performs no camera
reconfiguration. -/
theorem setWhileBusyRefused (target value : Str) (st : SystemStatus)
    (cfg : SystemConfig) (oracle : Nat → CamOutcome)
    (hbusy : st.isSsdvTransmitting = true) :
    handleSetCommand target value st cfg oracle =
      { config := cfg, sysStatus := st,
        emits := [.status .CMD_NACK_SSDV_BUSY .none],
        restart := false, reconfigCalls := 0 } := by
  unfold handleSetCommand
  simp [hbusy]

/-- Witness for `setWhileBusyRefused` at a concrete busy state and a
concrete SET command. -/
theorem setWhileBusyRefused_witness :
    ({ defaultStatus with isSsdvTransmitting := true } : SystemStatus).isSsdvTransmitting
        = true ∧
    handleSetCommand (str "CAM_QUALITY") (str "12")
        { defaultStatus with isSsdvTransmitting := true } defaultConfig
        (fun _ => .ok) =
      { config := defaultConfig,
        sysStatus := { defaultStatus with isSsdvTransmitting := true },
        emits := [.status .CMD_NACK_SSDV_BUSY .none],
        restart := false, reconfigCalls := 0 } :=
  ⟨rfl,
   setWhileBusyRefused (str "CAM_QUALITY") (str "12")
     { defaultStatus with isSsdvTransmitting := true } defaultConfig
     (fun _ => .ok) rfl⟩

/-- C2: for `SET CAM_QUALITY v` while not busy: with `5 ≤ v ≤ 20` and the
current resolution at or below `FRAMESIZE_SVGA` (and the camera hardware
accepting the reconfiguration), the stored quality becomes exactly `v`
and the ack is emitted; with `v` out of range, the configuration is
unchanged and the range nack is the sole emission; with `5 ≤ v < 10`
while the candidate resolution exceeds `FRAMESIZE_SVGA`, the
configuration is unchanged and the low-quality nack is the sole
emission. -/
theorem setCamQuality (value : Str) (v : Int) (st : SystemStatus)
    (cfg : SystemConfig) (oracle : Nat → CamOutcome)
    (hbusy : st.isSsdvTransmitting = false)
    (hv : atoi value = v) :
    (5 ≤ v → v ≤ 20 → cfg.cameraImageSize ≤ FRAMESIZE_SVGA → oracle 0 = .ok →
      (handleSetCommand (str "CAM_QUALITY") value st cfg oracle).config =
        { cfg with cameraImageQuality := v } ∧
      Output.status .CMD_ACK_CAM_QUALITY (.int v) ∈
        (handleSetCommand (str "CAM_QUALITY") value st cfg oracle).emits) ∧
    (v < 5 ∨ 20 < v →
      handleSetCommand (str "CAM_QUALITY") value st cfg oracle =
        { config := cfg, sysStatus := st,
          emits := [.status .CMD_NACK_SET_CAM_QUAL .none],
          restart := false, reconfigCalls := 0 }) ∧
    (5 ≤ v → v < 10 → FRAMESIZE_SVGA < cfg.cameraImageSize →
      handleSetCommand (str "CAM_QUALITY") value st cfg oracle =
        { config := cfg, sysStatus := st,
          emits := [.status .CMD_NACK_SET_CAM_QUAL_LOW .none],
          restart := false, reconfigCalls := 0 }) := by
  have hCQ : ¬ (str "CAM_QUALITY" = str "CAM_SIZE") := by decide
  refine ⟨?_, ?_, ?_⟩
  · intro h5 h20 hsz hcam
    unfold handleSetCommand camSetValidate camReconfigPhase
    rw [hv]
    have h1 : ¬ (v < 5 ∨ 20 < v) := by omega
    have h2 : ¬ (FRAMESIZE_SVGA < cfg.cameraImageSize ∧ v < 10) := by
      intro h; exact absurd h.1 (by omega)
    simp [hbusy, hCQ, h1, h2, hcam, reconfigureCamera]
  · intro hout
    unfold handleSetCommand camSetValidate
    rw [hv]
    simp [hbusy, hCQ, hout]
  · intro h5 h10 hsz
    unfold handleSetCommand camSetValidate
    rw [hv]
    have h1 : ¬ (v < 5 ∨ 20 < v) := by omega
    simp [hbusy, hCQ, h1, hsz, h10]

/-- Witness for `setCamQuality`: quality 12 on the default (VGA)
configuration. -/
theorem setCamQuality_witness :
    defaultStatus.isSsdvTransmitting = false ∧ atoi (str "12") = 12 ∧
    ((5 ≤ (12:Int) → (12:Int) ≤ 20 →
        defaultConfig.cameraImageSize ≤ FRAMESIZE_SVGA →
        (fun _ => CamOutcome.ok) 0 = CamOutcome.ok →
      (handleSetCommand (str "CAM_QUALITY") (str "12") defaultStatus
          defaultConfig (fun _ => .ok)).config =
        { defaultConfig with cameraImageQuality := 12 } ∧
      Output.status .CMD_ACK_CAM_QUALITY (.int 12) ∈
        (handleSetCommand (str "CAM_QUALITY") (str "12") defaultStatus
          defaultConfig (fun _ => .ok)).emits) ∧
     ((12:Int) < 5 ∨ 20 < (12:Int) →
      handleSetCommand (str "CAM_QUALITY") (str "12") defaultStatus
          defaultConfig (fun _ => .ok) =
        { config := defaultConfig, sysStatus := defaultStatus,
          emits := [.status .CMD_NACK_SET_CAM_QUAL .none],
          restart := false, reconfigCalls := 0 }) ∧
     (5 ≤ (12:Int) → (12:Int) < 10 →
        FRAMESIZE_SVGA < defaultConfig.cameraImageSize →
      handleSetCommand (str "CAM_QUALITY") (str "12") defaultStatus
          defaultConfig (fun _ => .ok) =
        { config := defaultConfig, sysStatus := defaultStatus,
          emits := [.status .CMD_NACK_SET_CAM_QUAL_LOW .none],
          restart := false, reconfigCalls := 0 })) :=
  ⟨rfl, by decide,
   setCamQuality (str "12") 12 defaultStatus defaultConfig (fun _ => .ok)
     rfl (by decide)⟩

/-- The status frames emitted inside a `Reconfigure_Camera` call never
include the handler-level reconfiguration/fatal codes. -/
theorem reconfigureCamera_emits_disjoint (o : CamOutcome) :
    (reconfigureCamera o).2.1.count (Output.status .CAM_RECONFIG_FAIL .none) = 0 ∧
    (reconfigureCamera o).2.1.count (Output.status .CAM_RESTORE_DEFAULT_FAIL .none) = 0 ∧
    (reconfigureCamera o).2.1.count (Output.status .SYS_RESTARTING .none) = 0 := by
  cases o <;> simp [reconfigureCamera, List.count_cons]

/-- The validation phase of a camera SET never emits the handler-level
reconfiguration/fatal codes. -/
theorem camSetValidate_emits_disjoint (target value : Str) (cfg : SystemConfig) :
    (camSetValidate target value cfg).2.2.count
      (Output.status .CAM_RECONFIG_FAIL .none) = 0 ∧
    (camSetValidate target value cfg).2.2.count
      (Output.status .CAM_RESTORE_DEFAULT_FAIL .none) = 0 ∧
    (camSetValidate target value cfg).2.2.count
      (Output.status .SYS_RESTARTING .none) = 0 := by
  unfold camSetValidate
  split
  · split <;> simp [List.count_cons]
  · dsimp only
    split_ifs <;> simp [List.count_cons]

/-- C3: when a camera SET passes validation but the camera
reconfiguration fails, the handler emits the failure status exactly
once, rewrites the camera fields to the hard-coded defaults (VGA size,
quality 5), and makes exactly one retry (two `Reconfigure_Camera` calls
in total); if the retry also fails it restarts, emitting the fatal
`CAM_RESTORE_DEFAULT_FAIL` and `SYS_RESTARTING` announcements exactly
once each, while a successful retry reports the restore and does not
restart. -/
theorem camReconfigRollback (target value : Str) (st : SystemStatus)
    (cfg : SystemConfig) (oracle : Nat → CamOutcome)
    (hbusy : st.isSsdvTransmitting = false)
    (htgt : target = str "CAM_SIZE" ∨ target = str "CAM_QUALITY")
    (hchanged : (camSetValidate target value cfg).1 = true)
    (hfail1 : (reconfigureCamera (oracle 0)).1 = false) :
    (handleSetCommand target value st cfg oracle).emits.count
        (Output.status .CAM_RECONFIG_FAIL .none) = 1 ∧
    (handleSetCommand target value st cfg oracle).config.cameraImageSize =
        FRAMESIZE_VGA ∧
    (handleSetCommand target value st cfg oracle).config.cameraImageQuality = 5 ∧
    (handleSetCommand target value st cfg oracle).reconfigCalls = 2 ∧
    ((reconfigureCamera (oracle 1)).1 = false →
      (handleSetCommand target value st cfg oracle).restart = true ∧
      (handleSetCommand target value st cfg oracle).emits.count
          (Output.status .CAM_RESTORE_DEFAULT_FAIL .none) = 1 ∧
      (handleSetCommand target value st cfg oracle).emits.count
          (Output.status .SYS_RESTARTING .none) = 1) ∧
    ((reconfigureCamera (oracle 1)).1 = true →
      (handleSetCommand target value st cfg oracle).restart = false ∧
      Output.status .CAM_RESTORE_DEFAULT_OK .none ∈
        (handleSetCommand target value st cfg oracle).emits) := by
  have hv := camSetValidate_emits_disjoint target value cfg
  have hr1 := reconfigureCamera_emits_disjoint (oracle 0)
  have hr2 := reconfigureCamera_emits_disjoint (oracle 1)
  have hset : handleSetCommand target value st cfg oracle =
      camReconfigPhase (camSetValidate target value cfg).2.1 st
        (camSetValidate target value cfg).2.2 oracle := by
    unfold handleSetCommand
    rcases htgt with h | h <;> subst h <;> simp [hbusy, hchanged]
  rw [hset]
  unfold camReconfigPhase
  rw [if_neg (by rw [hfail1]; simp)]
  by_cases h2 : (reconfigureCamera (oracle 1)).1 = true
  · rw [if_pos h2]
    refine ⟨?_, rfl, rfl, rfl, ?_, ?_⟩
    · simp [List.count_append, List.count_cons, hv.1, hr1.1, hr2.1]
    · intro hc; rw [hc] at h2; exact absurd h2 (by simp)
    · intro _; exact ⟨rfl, by simp⟩
  · rw [if_neg h2]
    refine ⟨?_, rfl, rfl, rfl, ?_, ?_⟩
    · simp [List.count_append, List.count_cons, hv.1, hr1.1, hr2.1]
    · intro _
      refine ⟨rfl, ?_, ?_⟩
      · simp [List.count_append, List.count_cons, hv.2.1, hr1.2.1, hr2.2.1]
      · simp [List.count_append, List.count_cons, hv.2.2, hr1.2.2, hr2.2.2]
    · intro hc; exact absurd hc h2

/-- Witness for `camReconfigRollback`: `SET CAM_QUALITY 12` on the
default configuration with both reconfiguration attempts failing. -/
theorem camReconfigRollback_witness :
    defaultStatus.isSsdvTransmitting = false ∧
    (str "CAM_QUALITY" = str "CAM_SIZE" ∨ str "CAM_QUALITY" = str "CAM_QUALITY") ∧
    (camSetValidate (str "CAM_QUALITY") (str "12") defaultConfig).1 = true ∧
    (reconfigureCamera ((fun _ => CamOutcome.calibrateFail) 0)).1 = false ∧
    ((handleSetCommand (str "CAM_QUALITY") (str "12") defaultStatus defaultConfig
        (fun _ => CamOutcome.calibrateFail)).emits.count
        (Output.status .CAM_RECONFIG_FAIL .none) = 1 ∧
     (handleSetCommand (str "CAM_QUALITY") (str "12") defaultStatus defaultConfig
        (fun _ => CamOutcome.calibrateFail)).config.cameraImageSize =
        FRAMESIZE_VGA ∧
     (handleSetCommand (str "CAM_QUALITY") (str "12") defaultStatus defaultConfig
        (fun _ => CamOutcome.calibrateFail)).config.cameraImageQuality = 5 ∧
     (handleSetCommand (str "CAM_QUALITY") (str "12") defaultStatus defaultConfig
        (fun _ => CamOutcome.calibrateFail)).reconfigCalls = 2 ∧
     ((reconfigureCamera ((fun _ => CamOutcome.calibrateFail) 1)).1 = false →
      (handleSetCommand (str "CAM_QUALITY") (str "12") defaultStatus defaultConfig
          (fun _ => CamOutcome.calibrateFail)).restart = true ∧
      (handleSetCommand (str "CAM_QUALITY") (str "12") defaultStatus defaultConfig
          (fun _ => CamOutcome.calibrateFail)).emits.count
          (Output.status .CAM_RESTORE_DEFAULT_FAIL .none) = 1 ∧
      (handleSetCommand (str "CAM_QUALITY") (str "12") defaultStatus defaultConfig
          (fun _ => CamOutcome.calibrateFail)).emits.count
          (Output.status .SYS_RESTARTING .none) = 1) ∧
     ((reconfigureCamera ((fun _ => CamOutcome.calibrateFail) 1)).1 = true →
      (handleSetCommand (str "CAM_QUALITY") (str "12") defaultStatus defaultConfig
          (fun _ => CamOutcome.calibrateFail)).restart = false ∧
      Output.status .CAM_RESTORE_DEFAULT_OK .none ∈
        (handleSetCommand (str "CAM_QUALITY") (str "12") defaultStatus defaultConfig
          (fun _ => CamOutcome.calibrateFail)).emits)) :=
  ⟨rfl, Or.inr rfl, by decide, by decide,
   camReconfigRollback (str "CAM_QUALITY") (str "12") defaultStatus defaultConfig
     (fun _ => CamOutcome.calibrateFail) rfl (Or.inr rfl) (by decide) (by decide)⟩

/-- Processing a byte sequence splits over concatenation. -/
theorem datalinkBytes_append (st : SystemStatus) (a b : Str) :
    ∀ buf, datalinkBytes st buf (a ++ b) =
      ((datalinkBytes st (datalinkBytes st buf a).1 b).1,
       (datalinkBytes st buf a).2.1 ++ (datalinkBytes st (datalinkBytes st buf a).1 b).2.1,
       (datalinkBytes st buf a).2.2 ++ (datalinkBytes st (datalinkBytes st buf a).1 b).2.2) := by
  induction a with
  | nil => intro buf; simp [datalinkBytes]
  | cons c cs ih =>
      intro buf
      rw [List.cons_append]
      simp only [datalinkBytes]
      rw [ih]
      simp [List.append_assoc]

/-- Bytes other than the newline terminator are only accumulated: they
produce no forwarded frame, and while the buffer has room they extend it
byte by byte. -/
theorem datalinkBytes_no_newline (st : SystemStatus) (w : Str) :
    ∀ buf, '\n' ∉ w →
      (datalinkBytes st buf w).2 = ([], []) ∧
      (buf.length + w.length ≤ MAX_RX_BUFF_SIZE - 1 →
        (datalinkBytes st buf w).1 = buf ++ w) := by
  induction w with
  | nil => intro buf _; simp [datalinkBytes]
  | cons c cs ih =>
      intro buf hnl
      have hc : c ≠ '\n' := fun h => hnl (h ▸ List.mem_cons_self c cs)
      have hcs : '\n' ∉ cs := fun h => hnl (List.mem_cons_of_mem c h)
      constructor
      · by_cases hlen : buf.length < MAX_RX_BUFF_SIZE - 1
        · simpa [datalinkBytes, datalinkByte, hc, hlen] using ((ih (buf ++ [c]) hcs).1)
        · simpa [datalinkBytes, datalinkByte, hc, hlen] using ((ih [] hcs).1)
      · intro hfit
        have hlen : buf.length < MAX_RX_BUFF_SIZE - 1 := by
          simp at hfit; omega
        have := (ih (buf ++ [c]) hcs).2 (by simp at hfit ⊢; omega)
        simp [datalinkBytes, datalinkByte, hc, hlen, this]

/-- C4 counterexample: the complete newline-terminated frame `"@@\n"`
begins with the command prefix `@@`, yet the Data-Link Task forwards
nothing at all (the source only classifies frames with `frame_len > 2`),
so the prefix-stripped frame is not placed on the command queue. -/
theorem emptyCmdFrameDropped :
    (datalinkBytes defaultStatus [] (str "@@\n")).2.1 = [] ∧
    ([] : List Str) ≠ [([] : Str)] := by decide

/-- C4 (amended): for every complete newline-terminated inbound frame
whose content (before the terminator) is longer than 2 bytes and fits
the receive buffer, a `@@` frame is forwarded, prefix stripped, to the
command queue and never to the relay queue, and a `##` frame is
forwarded, prefix stripped, to the relay queue exactly when relaying is
enabled and no image transmission is in progress, and is otherwise
dropped with no output; frames of 2 or fewer content bytes are dropped.
-/
theorem datalinkClassification (st : SystemStatus) (w : Str)
    (hnl : '\n' ∉ w) (hfit : w.length ≤ MAX_RX_BUFF_SIZE - 1) :
    (2 < w.length → w.take 2 = str "@@" →
      datalinkBytes st [] (w ++ ['\n']) = ([], [w.drop 2], [])) ∧
    (2 < w.length → w.take 2 = str "##" →
      datalinkBytes st [] (w ++ ['\n']) =
        ([], [],
         if st.isRelayEnabled ∧ ¬ st.isSsdvTransmitting then [w.drop 2] else [])) ∧
    (w.length ≤ 2 → datalinkBytes st [] (w ++ ['\n']) = ([], [], [])) := by
  have hpre := datalinkBytes_no_newline st w [] hnl
  have hbuf : (datalinkBytes st [] w).1 = w := by
    simpa using hpre.2 (by simpa using hfit)
  have hout : (datalinkBytes st [] w).2 = ([], []) := hpre.1
  have happ := datalinkBytes_append st w ['\n'] []
  have hsingle : ∀ b : Str, datalinkBytes st b ['\n'] =
      ((datalinkByte st b '\n').1, (datalinkByte st b '\n').2.1,
       (datalinkByte st b '\n').2.2) := by
    intro b; simp [datalinkBytes]
  refine ⟨?_, ?_, ?_⟩
  · intro hgt htake
    rw [happ, hsingle, hbuf]
    rw [Prod.ext_iff] at hout
    simp only [hout.1, hout.2, List.nil_append]
    simp [datalinkByte, hgt, htake]
  · intro hgt htake
    have hd : ¬ (str "##" = str "@@") := by decide
    rw [happ, hsingle, hbuf]
    rw [Prod.ext_iff] at hout
    simp only [hout.1, hout.2, List.nil_append]
    by_cases hrel : st.isRelayEnabled = true ∧ st.isSsdvTransmitting = false
    · simp [datalinkByte, hgt, htake, hd, hrel]
    · simp [datalinkByte, hgt, htake, hd, hrel]
  · intro hle
    have hngt : ¬ w.length > 2 := by omega
    rw [happ, hsingle, hbuf]
    rw [Prod.ext_iff] at hout
    simp only [hout.1, hout.2, List.nil_append]
    simp [datalinkByte, hngt]

/-- Witness for `datalinkClassification`: a command frame, a relay frame
with relaying enabled, and the short-frame drop, all at concrete
inputs. -/
theorem datalinkClassification_witness :
    '\n' ∉ str "@@CTL,RELAY,ON" ∧
    (str "@@CTL,RELAY,ON").length ≤ MAX_RX_BUFF_SIZE - 1 ∧
    (2 < (str "@@CTL,RELAY,ON").length → (str "@@CTL,RELAY,ON").take 2 = str "@@" →
      datalinkBytes defaultStatus [] (str "@@CTL,RELAY,ON" ++ ['\n']) =
        ([], [(str "@@CTL,RELAY,ON").drop 2], [])) ∧
    (2 < (str "@@CTL,RELAY,ON").length → (str "@@CTL,RELAY,ON").take 2 = str "##" →
      datalinkBytes defaultStatus [] (str "@@CTL,RELAY,ON" ++ ['\n']) =
        ([], [],
         if defaultStatus.isRelayEnabled ∧ ¬ defaultStatus.isSsdvTransmitting then
           [(str "@@CTL,RELAY,ON").drop 2] else [])) ∧
    ((str "@@CTL,RELAY,ON").length ≤ 2 →
      datalinkBytes defaultStatus [] (str "@@CTL,RELAY,ON" ++ ['\n']) =
        ([], [], [])) :=
  ⟨by decide, by decide,
   datalinkClassification defaultStatus (str "@@CTL,RELAY,ON")
     (by decide) (by decide)⟩

/-- C5: a byte sequence containing no newline terminator is never
forwarded anywhere (command and relay outputs stay empty from any buffer
state), and a sequence that exactly fills the receive buffer to capacity
leaves the frame buffer empty: the in-progress partial frame is
discarded silently. -/
theorem rxOverflowSilentDiscard (st : SystemStatus) (buf input : Str)
    (hnl : '\n' ∉ input) :
    (datalinkBytes st buf input).2 = ([], []) ∧
    (input.length = MAX_RX_BUFF_SIZE → (datalinkBytes st [] input).1 = []) := by
  refine ⟨(datalinkBytes_no_newline st input buf hnl).1, ?_⟩
  intro hcap
  have h512 : MAX_RX_BUFF_SIZE = 512 := rfl
  have hsplit : input = input.take (MAX_RX_BUFF_SIZE - 1) ++
      input.drop (MAX_RX_BUFF_SIZE - 1) := (List.take_append_drop _ _).symm
  have hnl1 : '\n' ∉ input.take (MAX_RX_BUFF_SIZE - 1) := fun h =>
    hnl (List.mem_of_mem_take h)
  have hlen1 : (input.take (MAX_RX_BUFF_SIZE - 1)).length = MAX_RX_BUFF_SIZE - 1 := by
    rw [List.length_take]; omega
  have hlen2 : (input.drop (MAX_RX_BUFF_SIZE - 1)).length = 1 := by
    rw [List.length_drop]; omega
  obtain ⟨c, hc⟩ := List.length_eq_one.mp hlen2
  have hcnl : c ≠ '\n' := by
    intro h
    exact hnl (h ▸ (hsplit ▸ List.mem_append_right _ (hc ▸ List.mem_singleton_self c)))
  rw [hsplit, datalinkBytes_append, hc]
  have hb1 : (datalinkBytes st [] (input.take (MAX_RX_BUFF_SIZE - 1))).1 =
      input.take (MAX_RX_BUFF_SIZE - 1) := by
    simpa using (datalinkBytes_no_newline st _ [] hnl1).2 (by simp [hlen1])
  rw [hb1]
  have hfull : ¬ (input.take (MAX_RX_BUFF_SIZE - 1)).length < MAX_RX_BUFF_SIZE - 1 := by
    omega
  have hstep : (datalinkByte st (input.take (MAX_RX_BUFF_SIZE - 1)) c).1 = [] := by
    unfold datalinkByte
    rw [if_pos hcnl, if_neg hfull]
  simp [datalinkBytes, hstep]

/-- Witness for `rxOverflowSilentDiscard`: 512 bytes of `'A'` with no
terminator are forwarded nowhere and leave the frame buffer empty. -/
theorem rxOverflowSilentDiscard_witness :
    '\n' ∉ List.replicate 512 'A' ∧
    ((datalinkBytes defaultStatus [] (List.replicate 512 'A')).2 = ([], []) ∧
     ((List.replicate 512 'A').length = MAX_RX_BUFF_SIZE →
       (datalinkBytes defaultStatus [] (List.replicate 512 'A')).1 = [])) :=
  ⟨fun h => absurd (List.eq_of_mem_replicate h) (by decide),
   rxOverflowSilentDiscard defaultStatus [] (List.replicate 512 'A')
     (fun h => absurd (List.eq_of_mem_replicate h) (by decide))⟩

/-- C6: for a payload that fits the transmit buffer, `Transmit_Data`
blocks up to `TX_BLOCK_MS = 500` milliseconds per attempt and makes up
to 3 attempts: with the queue full at all three attempts it returns
failure after exactly 3 attempts, and as soon as an attempt observes a
free slot it returns success with the packet enqueued at that attempt
(head or tail according to `send_to_front`). -/
theorem transmitDataBackpressure (maxTx : Nat) (data : Str) (b f : Bool)
    (qs : Nat → List RadioPacket) (hlen : data.length ≤ maxTx) :
    TX_BLOCK_MS = 500 ∧
    (∀ q : List RadioPacket, q.length < TX_QUEUE_CAPACITY →
      txTry ⟨data, b⟩ f q =
        some (if f then ⟨data, b⟩ :: q else q ++ [⟨data, b⟩])) ∧
    (TX_QUEUE_CAPACITY ≤ (qs 0).length → TX_QUEUE_CAPACITY ≤ (qs 1).length →
     TX_QUEUE_CAPACITY ≤ (qs 2).length →
      transmitData maxTx data b f qs = ⟨false, none, 3⟩) ∧
    ((qs 0).length < TX_QUEUE_CAPACITY →
      transmitData maxTx data b f qs = ⟨true, txTry ⟨data, b⟩ f (qs 0), 1⟩) ∧
    (TX_QUEUE_CAPACITY ≤ (qs 0).length → (qs 1).length < TX_QUEUE_CAPACITY →
      transmitData maxTx data b f qs = ⟨true, txTry ⟨data, b⟩ f (qs 1), 2⟩) ∧
    (TX_QUEUE_CAPACITY ≤ (qs 0).length → TX_QUEUE_CAPACITY ≤ (qs 1).length →
     (qs 2).length < TX_QUEUE_CAPACITY →
      transmitData maxTx data b f qs = ⟨true, txTry ⟨data, b⟩ f (qs 2), 3⟩) := by
  have hnl : ¬ data.length > maxTx := by omega
  have hfail : ∀ q : List RadioPacket, TX_QUEUE_CAPACITY ≤ q.length →
      txTry ⟨data, b⟩ f q = none := by
    intro q hq
    have hq2 : ¬ q.length < TX_QUEUE_CAPACITY := by omega
    unfold txTry xQueueSendToFront xQueueSendBack
    cases f <;> simp [hq2]
  have hok : ∀ q : List RadioPacket, q.length < TX_QUEUE_CAPACITY →
      txTry ⟨data, b⟩ f q =
        some (if f then ⟨data, b⟩ :: q else q ++ [⟨data, b⟩]) := by
    intro q hq
    unfold txTry xQueueSendToFront xQueueSendBack
    cases f <;> simp [hq]
  refine ⟨rfl, hok, ?_, ?_, ?_, ?_⟩
  · intro h1 h2 h3
    simp only [transmitData, if_neg hnl, txLoop,
      hfail (qs 0) h1, hfail (qs 1) h2, hfail (qs 2) h3]
  · intro h1
    simp only [transmitData, if_neg hnl, txLoop, hok (qs 0) h1]
  · intro h1 h2
    simp only [transmitData, if_neg hnl, txLoop,
      hfail (qs 0) h1, hok (qs 1) h2]
  · intro h1 h2 h3
    simp only [transmitData, if_neg hnl, txLoop,
      hfail (qs 0) h1, hfail (qs 1) h2, hok (qs 2) h3]

/-- Witness for `transmitDataBackpressure`: a 2-byte payload against a
queue that is full at every attempt (failure after 3 attempts), with
the free-slot conclusions discharged vacuously or directly. -/
theorem transmitDataBackpressure_witness :
    (str "HI").length ≤ 256 ∧
    (TX_BLOCK_MS = 500 ∧
     (∀ q : List RadioPacket, q.length < TX_QUEUE_CAPACITY →
       txTry ⟨str "HI", true⟩ false q =
         some (if false then ⟨str "HI", true⟩ :: q else q ++ [⟨str "HI", true⟩])) ∧
     (TX_QUEUE_CAPACITY ≤ ((fun _ => List.replicate 120 (⟨[], true⟩ : RadioPacket)) 0).length →
      TX_QUEUE_CAPACITY ≤ ((fun _ => List.replicate 120 (⟨[], true⟩ : RadioPacket)) 1).length →
      TX_QUEUE_CAPACITY ≤ ((fun _ => List.replicate 120 (⟨[], true⟩ : RadioPacket)) 2).length →
       transmitData 256 (str "HI") true false
         (fun _ => List.replicate 120 ⟨[], true⟩) = ⟨false, none, 3⟩) ∧
     (((fun _ => List.replicate 120 (⟨[], true⟩ : RadioPacket)) 0).length < TX_QUEUE_CAPACITY →
       transmitData 256 (str "HI") true false (fun _ => List.replicate 120 ⟨[], true⟩) =
         ⟨true, txTry ⟨str "HI", true⟩ false
           ((fun _ => List.replicate 120 (⟨[], true⟩ : RadioPacket)) 0), 1⟩) ∧
     (TX_QUEUE_CAPACITY ≤ ((fun _ => List.replicate 120 (⟨[], true⟩ : RadioPacket)) 0).length →
      ((fun _ => List.replicate 120 (⟨[], true⟩ : RadioPacket)) 1).length < TX_QUEUE_CAPACITY →
       transmitData 256 (str "HI") true false (fun _ => List.replicate 120 ⟨[], true⟩) =
         ⟨true, txTry ⟨str "HI", true⟩ false
           ((fun _ => List.replicate 120 (⟨[], true⟩ : RadioPacket)) 1), 2⟩) ∧
     (TX_QUEUE_CAPACITY ≤ ((fun _ => List.replicate 120 (⟨[], true⟩ : RadioPacket)) 0).length →
      TX_QUEUE_CAPACITY ≤ ((fun _ => List.replicate 120 (⟨[], true⟩ : RadioPacket)) 1).length →
      ((fun _ => List.replicate 120 (⟨[], true⟩ : RadioPacket)) 2).length < TX_QUEUE_CAPACITY →
       transmitData 256 (str "HI") true false (fun _ => List.replicate 120 ⟨[], true⟩) =
         ⟨true, txTry ⟨str "HI", true⟩ false
           ((fun _ => List.replicate 120 (⟨[], true⟩ : RadioPacket)) 2), 3⟩)) :=
  ⟨by decide,
   transmitDataBackpressure 256 (str "HI") true false
     (fun _ => List.replicate 120 ⟨[], true⟩) (by decide)⟩

/-- A successful front-insertion retry loop always reports a queue whose
head is the submitted packet. -/
theorem txLoop_front_head (p : RadioPacket) (qs : Nat → List RadioPacket)
    (h : (txLoop p true qs).ok = true) :
    ∃ q, (txLoop p true qs).queueAfter = some (p :: q) := by
  have hcase : ∀ i : Nat, txTry p true (qs i) = none ∨
      txTry p true (qs i) = some (p :: qs i) := by
    intro i
    unfold txTry xQueueSendToFront
    by_cases hs : (qs i).length < TX_QUEUE_CAPACITY
    · exact Or.inr (by simp [hs])
    · exact Or.inl (by simp [hs])
  rcases hcase 0 with h0 | h0
  · rcases hcase 1 with h1 | h1
    · rcases hcase 2 with h2 | h2
      · rw [txLoop, h0, h1, h2] at h; simp at h
      · exact ⟨qs 2, by rw [txLoop, h0, h1, h2]⟩
    · exact ⟨qs 1, by rw [txLoop, h0, h1]⟩
  · exact ⟨qs 0, by rw [txLoop, h0]⟩

/-- C10: every frame submitted through `Transmit_Text` — telemetry,
status/ack/nack and relay re-emissions alike — is enqueued with
`send_to_front = true`: whenever the call succeeds, the transmit queue
right after the enqueue has the new text packet (with
`is_binary = false`) at its head, never appended at the tail; and
`Transmit_Data` rejects any payload longer than the transmit buffer
outright, returning failure with no enqueue attempt. -/
theorem transmitTextUrgent (maxTx : Nat) (content : Str)
    (qss : Nat → Nat → List RadioPacket) :
    ((transmitText maxTx content qss).ok = true →
      ∃ q, (transmitText maxTx content qss).queueAfter =
        some (⟨transmitTextBuffer maxTx content, false⟩ :: q)) ∧
    (∀ d : Str, ∀ bin front : Bool, ∀ qs : Nat → List RadioPacket,
      d.length > maxTx → transmitData maxTx d bin front qs = ⟨false, none, 0⟩) := by
  have hdata : ∀ i, (transmitData maxTx (transmitTextBuffer maxTx content)
      false true (qss i)).ok = true →
      ∃ q, (transmitData maxTx (transmitTextBuffer maxTx content)
        false true (qss i)).queueAfter =
        some (⟨transmitTextBuffer maxTx content, false⟩ :: q) := by
    intro i hr
    unfold transmitData at hr ⊢
    by_cases hbig : (transmitTextBuffer maxTx content).length > maxTx
    · rw [if_pos hbig] at hr; simp at hr
    · rw [if_neg hbig] at hr ⊢
      exact txLoop_front_head _ _ hr
  constructor
  · intro h
    unfold transmitText ttLoop at h ⊢
    by_cases h0 : (transmitData maxTx (transmitTextBuffer maxTx content)
        false true (qss 0)).ok = true
    · rw [if_pos h0] at h ⊢
      exact hdata 0 h0
    · rw [if_neg h0] at h ⊢
      by_cases h1 : (transmitData maxTx (transmitTextBuffer maxTx content)
          false true (qss 1)).ok = true
      · rw [if_pos h1] at h ⊢
        exact hdata 1 h1
      · rw [if_neg h1] at h ⊢
        by_cases h2 : (transmitData maxTx (transmitTextBuffer maxTx content)
            false true (qss 2)).ok = true
        · rw [if_pos h2] at h ⊢
          exact hdata 2 h2
        · rw [if_neg h2] at h; simp at h
  · intro d bin front qs hbig
    unfold transmitData
    rw [if_pos hbig]

/-- Witness for `transmitTextUrgent`: a successful submission against an
empty queue puts the text packet at the queue head, and an oversized
payload is rejected. -/
theorem transmitTextUrgent_witness :
    ((transmitText 256 (str "HI") (fun _ _ => [])).ok = true →
      ∃ q, (transmitText 256 (str "HI") (fun _ _ => [])).queueAfter =
        some (⟨transmitTextBuffer 256 (str "HI"), false⟩ :: q)) ∧
    (∀ d : Str, ∀ bin front : Bool, ∀ qs : Nat → List RadioPacket,
      d.length > 256 → transmitData 256 d bin front qs = ⟨false, none, 0⟩) :=
  transmitTextUrgent 256 (str "HI") (fun _ _ => [])

/-- Once the ceiling is reached and the notice has been emitted, the
relay loop drops every further frame of the window silently. -/
theorem relayRun_saturated (status : SystemStatus)
    (hen : status.isRelayEnabled = true) :
    ∀ fs (c : Nat), RELAY_WINDOW_LIMIT ≤ c →
      relayRun status ⟨c, true⟩ fs = (⟨c, true⟩, []) := by
  intro fs
  induction fs with
  | nil => intro c _; rfl
  | cons f rest ih =>
      intro c hc
      have h1 : ¬ c < RELAY_WINDOW_LIMIT := by omega
      have hstep : relayStep ⟨c, true⟩ f = (⟨c, true⟩, []) := by
        simp [relayStep, h1]
      rw [relayRun, if_pos hen, hstep]
      simp [ih c hc]

/-- Closed form of the relay loop within one window from an un-warned
state: the first `RELAY_WINDOW_LIMIT - count` frames are re-wrapped and
re-emitted, and one rate-limit notice is emitted exactly when more
frames arrive. -/
theorem relayRun_window (status : SystemStatus)
    (hen : status.isRelayEnabled = true) :
    ∀ fs (c : Nat), c ≤ RELAY_WINDOW_LIMIT →
      relayRun status ⟨c, false⟩ fs =
        (⟨min RELAY_WINDOW_LIMIT (c + fs.length),
          decide (RELAY_WINDOW_LIMIT - c < fs.length)⟩,
         (fs.take (RELAY_WINDOW_LIMIT - c)).map
           (fun f => Output.text (str "##RELAY," ++ f)) ++
         (if RELAY_WINDOW_LIMIT - c < fs.length then
            [Output.status .RELAY_RATE_LIMITED .none] else [])) := by
  intro fs
  induction fs with
  | nil =>
      intro c hc
      have h1 : min RELAY_WINDOW_LIMIT (c + 0) = c := by omega
      have h2 : ¬ (RELAY_WINDOW_LIMIT - c < 0) := by omega
      rw [relayRun]
      simp only [List.length_nil, List.take_nil, List.map_nil,
        List.nil_append, if_neg h2, decide_eq_false h2, h1]
  | cons f rest ih =>
      intro c hc
      by_cases hlt : c < RELAY_WINDOW_LIMIT
      · have hstep : relayStep ⟨c, false⟩ f =
            (⟨c + 1, false⟩, [Output.text (str "##RELAY," ++ f)]) := by
          simp [relayStep, hlt]
        rw [relayRun, if_pos hen, hstep]
        simp only []
        rw [ih (c + 1) (by omega)]
        have htake : RELAY_WINDOW_LIMIT - c = (RELAY_WINDOW_LIMIT - (c + 1)) + 1 := by
          omega
        have hiff2 : (RELAY_WINDOW_LIMIT - (c + 1) < rest.length) ↔
            (RELAY_WINDOW_LIMIT - (c + 1) + 1 < (f :: rest).length) := by
          simp only [List.length_cons]; omega
        rw [htake]
        simp only [List.take_succ_cons, List.map_cons, List.cons_append,
          List.nil_append]
        rw [if_congr hiff2 rfl rfl]
        congr 1
        congr 1
        · simp only [List.length_cons]; omega
        · exact decide_eq_decide.mpr hiff2
      · have hceil : c = RELAY_WINDOW_LIMIT := by omega
        have hstep : relayStep ⟨c, false⟩ f =
            (⟨c, true⟩, [Output.status .RELAY_RATE_LIMITED .none]) := by
          simp [relayStep, hlt]
        rw [relayRun, if_pos hen, hstep]
        simp only []
        rw [relayRun_saturated status hen rest c (by omega)]
        have h0 : RELAY_WINDOW_LIMIT - c = 0 := by omega
        have hpos : RELAY_WINDOW_LIMIT - c < (f :: rest).length := by
          simp only [List.length_cons]; omega
        have hmin2 : min RELAY_WINDOW_LIMIT (c + (f :: rest).length) =
            RELAY_WINDOW_LIMIT := by
          simp only [List.length_cons]; omega
        rw [h0]
        simp only [List.take_zero, List.map_nil, List.nil_append,
          if_pos hpos, decide_eq_true hpos, hmin2, hceil]
        simp

/-- C7: with relaying enabled, any 100 relay frames dequeued within a
single 120-second rate window cause exactly the first 80 to be
re-wrapped with the relay header and re-emitted as text, followed by
exactly one rate-limit notice; and after the window reset the very next
frame is re-emitted. -/
theorem relayRateLimit (status : SystemStatus) (frames : List Str)
    (hen : status.isRelayEnabled = true) (hlen : frames.length = 100) :
    RELAY_RESET_INTERVAL_MS = 120000 ∧
    relayRun status relayWindowReset frames =
      (⟨80, true⟩,
       (frames.take 80).map (fun f => Output.text (str "##RELAY," ++ f)) ++
       [Output.status .RELAY_RATE_LIMITED .none]) ∧
    (∀ f : Str, relayRun status relayWindowReset [f] =
      (⟨1, false⟩, [Output.text (str "##RELAY," ++ f)])) := by
  have hreset : relayWindowReset = (⟨0, false⟩ : RelayState) := rfl
  refine ⟨rfl, ?_, ?_⟩
  · rw [hreset, relayRun_window status hen frames 0 (by simp [RELAY_WINDOW_LIMIT])]
    rw [hlen]
    norm_num [RELAY_WINDOW_LIMIT]
  · intro f
    rw [hreset, relayRun_window status hen [f] 0 (by simp [RELAY_WINDOW_LIMIT])]
    norm_num [RELAY_WINDOW_LIMIT]

/-- Witness for `relayRateLimit`: 100 copies of a concrete frame with
relaying enabled. -/
theorem relayRateLimit_witness :
    defaultStatus.isRelayEnabled = true ∧
    (List.replicate 100 (str "N0CALL,HELLO")).length = 100 ∧
    (RELAY_RESET_INTERVAL_MS = 120000 ∧
     relayRun defaultStatus relayWindowReset (List.replicate 100 (str "N0CALL,HELLO")) =
       (⟨80, true⟩,
        ((List.replicate 100 (str "N0CALL,HELLO")).take 80).map
          (fun f => Output.text (str "##RELAY," ++ f)) ++
        [Output.status .RELAY_RATE_LIMITED .none]) ∧
     (∀ f : Str, relayRun defaultStatus relayWindowReset [f] =
       (⟨1, false⟩, [Output.text (str "##RELAY," ++ f)]))) :=
  ⟨rfl, by simp,
   relayRateLimit defaultStatus (List.replicate 100 (str "N0CALL,HELLO"))
     rfl (by simp)⟩

/-- C8: `Process_Command` splits the inbound frame on commas into
verb/target/value (`strtok_r` semantics); with fewer than two fields it
emits the format-error nack and changes nothing; a `GET` with a target
is dispatched to the GET handler without requiring a value; any other
verb with no value field emits the no-value nack and changes nothing. -/
theorem commandParsing (cmd : Str) (st : SystemStatus) (cfg : SystemConfig)
    (oracle : Nat → CamOutcome) :
    ((tokenize cmd).length < 2 →
      processCommand cmd st cfg oracle =
        { config := cfg, sysStatus := st,
          emits := [.status .CMD_NACK_FORMAT_ERROR .none],
          restart := false, reconfigCalls := 0 }) ∧
    (∀ target rest, tokenize cmd = str "GET" :: target :: rest →
      processCommand cmd st cfg oracle =
        { config := cfg, sysStatus := st,
          emits := handleGetCommand target st cfg,
          restart := false, reconfigCalls := 0 }) ∧
    (∀ verb target, tokenize cmd = [verb, target] → verb ≠ str "GET" →
      processCommand cmd st cfg oracle =
        { config := cfg, sysStatus := st,
          emits := [.status .CMD_NACK_NO_VALUE .none],
          restart := false, reconfigCalls := 0 }) := by
  refine ⟨?_, ?_, ?_⟩
  · intro hlen
    unfold processCommand
    rcases htoks : tokenize cmd with _ | ⟨a, _ | ⟨b, rest⟩⟩
    · simp [processTokens]
    · simp [processTokens, List.get?]
    · exact absurd hlen (by rw [htoks]; simp)
  · intro target rest htoks
    unfold processCommand
    rw [htoks]
    simp [processTokens, List.get?]
  · intro verb target htoks hne
    unfold processCommand
    rw [htoks]
    simp [processTokens, List.get?, hne]

/-- Witness for `commandParsing`: the three conjuncts applied at the
concrete inputs `"FOO"`, `"GET,CAM"` and `"CTL,RELAY"`. -/
theorem commandParsing_witness :
    processCommand (str "FOO") defaultStatus defaultConfig (fun _ => .ok) =
      { config := defaultConfig, sysStatus := defaultStatus,
        emits := [.status .CMD_NACK_FORMAT_ERROR .none],
        restart := false, reconfigCalls := 0 } ∧
    processCommand (str "GET,CAM") defaultStatus defaultConfig (fun _ => .ok) =
      { config := defaultConfig, sysStatus := defaultStatus,
        emits := handleGetCommand (str "CAM") defaultStatus defaultConfig,
        restart := false, reconfigCalls := 0 } ∧
    processCommand (str "CTL,RELAY") defaultStatus defaultConfig (fun _ => .ok) =
      { config := defaultConfig, sysStatus := defaultStatus,
        emits := [.status .CMD_NACK_NO_VALUE .none],
        restart := false, reconfigCalls := 0 } :=
  ⟨(commandParsing (str "FOO") defaultStatus defaultConfig (fun _ => .ok)).1
     (by decide),
   (commandParsing (str "GET,CAM") defaultStatus defaultConfig
     (fun _ => .ok)).2.1 (str "CAM") [] (by decide),
   (commandParsing (str "CTL,RELAY") defaultStatus defaultConfig
     (fun _ => .ok)).2.2 (str "CTL") (str "RELAY") (by decide) (by decide)⟩

/-- The GET handler answers every target (known or not) with at least
one status frame. -/
theorem handleGetCommand_ne_nil (target : Str) (st : SystemStatus)
    (cfg : SystemConfig) : handleGetCommand target st cfg ≠ [] := by
  unfold handleGetCommand
  split_ifs <;> simp

/-- The validation phase of a camera SET always emits exactly one
frame. -/
theorem camSetValidate_ne_nil (target value : Str) (cfg : SystemConfig) :
    (camSetValidate target value cfg).2.2 ≠ [] := by
  unfold camSetValidate
  split
  · split <;> simp
  · dsimp only
    split_ifs <;> simp

/-- A camera SET that passes validation has emitted exactly the
corresponding ack frame. -/
theorem camSetValidate_changed_ack (target value : Str) (cfg : SystemConfig)
    (h : (camSetValidate target value cfg).1 = true) :
    ∃ n : Int,
      (camSetValidate target value cfg).2.2 =
        [Output.status .CMD_ACK_CAM_SIZE (.int n)] ∨
      (camSetValidate target value cfg).2.2 =
        [Output.status .CMD_ACK_CAM_QUALITY (.int n)] := by
  by_cases ht : target = str "CAM_SIZE"
  · rcases hfind : cam_modes.find? (fun m => m.1 = value) with _ | m
    · exfalso
      unfold camSetValidate at h
      rw [if_pos ht, hfind] at h
      simp at h
    · refine ⟨(m.2 : Int), Or.inl ?_⟩
      unfold camSetValidate
      rw [if_pos ht, hfind]
  · by_cases h5 : atoi value < 5 ∨ atoi value > 20
    · exfalso
      unfold camSetValidate at h
      rw [if_neg ht] at h
      simp only [if_pos h5] at h
      simp at h
    · by_cases hlow : cfg.cameraImageSize > FRAMESIZE_SVGA ∧ atoi value < 10
      · exfalso
        unfold camSetValidate at h
        rw [if_neg ht] at h
        simp only [if_neg h5, if_pos hlow] at h
        simp at h
      · refine ⟨atoi value, Or.inr ?_⟩
        unfold camSetValidate
        rw [if_neg ht]
        simp only [if_neg h5, if_neg hlow]

/-- `Handle_CTL_Command` is silent exactly on `RELAY`/`SSDV` targets
with a value other than `ON`/`OFF`, and restarts exactly on
`SYS`/`REBOOT`. -/
theorem handleCtlCommand_cases (target value : Str) (st : SystemStatus) :
    ((handleCtlCommand target value st).2.1 = [] →
      (target = str "RELAY" ∨ target = str "SSDV") ∧
      value ≠ str "ON" ∧ value ≠ str "OFF") ∧
    ((handleCtlCommand target value st).2.2 = true →
      target = str "SYS" ∧ value = str "REBOOT") := by
  unfold handleCtlCommand
  split_ifs <;> simp_all

/-- `Handle_SET_Command` with a live camera is silent exactly on
`SSDV_TYPE` with an unknown value, never restarts, and performs camera
reconfiguration only after having emitted a camera ack. -/
theorem handleSetCommand_answered (target value : Str) (st : SystemStatus)
    (cfg : SystemConfig) (oracle : Nat → CamOutcome)
    (hok : oracle 0 = CamOutcome.ok) :
    ((handleSetCommand target value st cfg oracle).emits = [] →
      target = str "SSDV_TYPE" ∧ value ≠ str "NORMAL" ∧ value ≠ str "NOFEC") ∧
    ((handleSetCommand target value st cfg oracle).restart = true → False) ∧
    ((handleSetCommand target value st cfg oracle).reconfigCalls ≠ 0 →
      ∃ n : Int,
        Output.status .CMD_ACK_CAM_SIZE (.int n) ∈
          (handleSetCommand target value st cfg oracle).emits ∨
        Output.status .CMD_ACK_CAM_QUALITY (.int n) ∈
          (handleSetCommand target value st cfg oracle).emits) := by
  by_cases hbusy : st.isSsdvTransmitting = true
  · simp [handleSetCommand, hbusy]
  · have hbusy2 : st.isSsdvTransmitting = false := by
      cases hsb : st.isSsdvTransmitting
      · rfl
      · exact absurd hsb hbusy
    by_cases hcam : target = str "CAM_SIZE" ∨ target = str "CAM_QUALITY"
    · have hset : handleSetCommand target value st cfg oracle =
          if (camSetValidate target value cfg).1 then
            camReconfigPhase (camSetValidate target value cfg).2.1 st
              (camSetValidate target value cfg).2.2 oracle
          else
            { config := cfg, sysStatus := st,
              emits := (camSetValidate target value cfg).2.2,
              restart := false, reconfigCalls := 0 } := by
        unfold handleSetCommand
        rcases hcam with h | h <;> subst h <;> simp [hbusy2]
      rw [hset]
      by_cases hch : (camSetValidate target value cfg).1 = true
      · rw [if_pos hch]
        unfold camReconfigPhase
        rw [hok]
        simp only [reconfigureCamera]
        refine ⟨?_, ?_, ?_⟩
        · intro he; simp at he
        · intro hr; simp at hr
        · intro _
          obtain ⟨n, hn⟩ := camSetValidate_changed_ack target value cfg hch
          refine ⟨n, ?_⟩
          rcases hn with h | h
          · exact Or.inl (by simp [h])
          · exact Or.inr (by simp [h])
      · rw [if_neg hch]
        refine ⟨?_, ?_, ?_⟩
        · intro he
          exact absurd he (camSetValidate_ne_nil target value cfg)
        · intro hr; simp at hr
        · intro hc; simp at hc
    · by_cases hssdv : target = str "SSDV_TYPE" ∨ target = str "SSDV_QUALITY" ∨
          target = str "SSDV_CYCLE"
      · rcases hssdv with h | h | h <;> subst h
        · refine ⟨?_, ?_, ?_⟩
          · intro he
            by_cases hN : value = str "NORMAL"
            · exfalso; revert he; simp [handleSetCommand, hbusy2, hcam, hN]
            · by_cases hF : value = str "NOFEC"
              · exfalso; revert he
                simp [handleSetCommand, hbusy2, hcam, hN, hF,
                  show ¬ (str "NOFEC" = str "NORMAL") from by decide]
              · exact ⟨rfl, hN, hF⟩
          · intro hr
            exfalso; revert hr
            by_cases hN : value = str "NORMAL"
            · simp [handleSetCommand, hbusy2, hcam, hN]
            · by_cases hF : value = str "NOFEC" <;>
                simp [handleSetCommand, hbusy2, hcam, hN, hF,
                  show ¬ (str "NOFEC" = str "NORMAL") from by decide]
          · intro hc
            exfalso; revert hc
            by_cases hN : value = str "NORMAL"
            · simp [handleSetCommand, hbusy2, hcam, hN]
            · by_cases hF : value = str "NOFEC" <;>
                simp [handleSetCommand, hbusy2, hcam, hN, hF,
                  show ¬ (str "NOFEC" = str "NORMAL") from by decide]
        · have hd : ¬ (str "SSDV_QUALITY" = str "SSDV_TYPE") := by decide
          by_cases hq : atoi value ≥ 0 ∧ atoi value ≤ 6 <;>
            simp [handleSetCommand, hbusy2, hcam, hd, hq]
        · have hd1 : ¬ (str "SSDV_CYCLE" = str "SSDV_TYPE") := by decide
          have hd2 : ¬ (str "SSDV_CYCLE" = str "SSDV_QUALITY") := by decide
          by_cases hq : atoi value ≥ 10 ∧ atoi value ≤ 100 <;>
            simp [handleSetCommand, hbusy2, hcam, hd1, hd2, hq]
      · simp [handleSetCommand, hbusy2, hcam, hssdv]

/-- Core of the amended C9 claim, over the already-tokenized fields. -/
theorem processTokens_answered (toks : List Str) (st : SystemStatus)
    (cfg : SystemConfig) (oracle : Nat → CamOutcome)
    (hok : oracle 0 = CamOutcome.ok) :
    ((processTokens toks st cfg oracle).emits = [] → silentlyIgnored toks) ∧
    ((processTokens toks st cfg oracle).restart = true →
      toks.get? 0 = some (str "CTL") ∧ toks.get? 1 = some (str "SYS") ∧
      toks.get? 2 = some (str "REBOOT")) ∧
    ((processTokens toks st cfg oracle).reconfigCalls ≠ 0 →
      ∃ n : Int,
        Output.status .CMD_ACK_CAM_SIZE (.int n) ∈
          (processTokens toks st cfg oracle).emits ∨
        Output.status .CMD_ACK_CAM_QUALITY (.int n) ∈
          (processTokens toks st cfg oracle).emits) := by
  match toks with
  | [] => simp [processTokens]
  | [a] => simp [processTokens, List.get?]
  | a :: b :: rest =>
    by_cases hGET : a = str "GET"
    · subst hGET
      have heq : processTokens (str "GET" :: b :: rest) st cfg oracle =
          { config := cfg, sysStatus := st,
            emits := handleGetCommand b st cfg,
            restart := false, reconfigCalls := 0 } := by
        simp [processTokens, List.get?]
      rw [heq]
      refine ⟨?_, ?_, ?_⟩
      · intro he
        exact absurd he (handleGetCommand_ne_nil b st cfg)
      · intro hr; simp at hr
      · intro hc; simp at hc
    · match rest with
      | [] =>
        have heq : processTokens [a, b] st cfg oracle =
            { config := cfg, sysStatus := st,
              emits := [.status .CMD_NACK_NO_VALUE .none],
              restart := false, reconfigCalls := 0 } := by
          simp [processTokens, List.get?, hGET]
        rw [heq]
        refine ⟨?_, ?_, ?_⟩
        · intro he; simp at he
        · intro hr; simp at hr
        · intro hc; simp at hc
      | v :: rest2 =>
        by_cases hCTL : a = str "CTL"
        · subst hCTL
          have hne : ¬ (str "CTL" = str "GET") := by decide
          have heq : processTokens (str "CTL" :: b :: v :: rest2) st cfg oracle =
              { config := cfg, sysStatus := (handleCtlCommand b v st).1,
                emits := (handleCtlCommand b v st).2.1,
                restart := (handleCtlCommand b v st).2.2, reconfigCalls := 0 } := by
            simp [processTokens, List.get?, hne]
          rw [heq]
          refine ⟨?_, ?_, ?_⟩
          · intro he
            rcases (handleCtlCommand_cases b v st).1 he with ⟨hb, hvon, hvoff⟩
            refine Or.inl ⟨rfl, ?_, v, rfl, hvon, hvoff⟩
            rcases hb with h | h <;> simp [List.get?, h]
          · intro hr
            rcases (handleCtlCommand_cases b v st).2 hr with ⟨hb, hv⟩
            exact ⟨rfl, by subst hb; rfl, by subst hv; rfl⟩
          · intro hc; exact absurd rfl hc
        · by_cases hSET : a = str "SET"
          · subst hSET
            have hne1 : ¬ (str "SET" = str "GET") := by decide
            have hne2 : ¬ (str "SET" = str "CTL") := by decide
            have heq : processTokens (str "SET" :: b :: v :: rest2) st cfg oracle =
                handleSetCommand b v st cfg oracle := by
              simp [processTokens, List.get?, hne1, hne2]
            rw [heq]
            have hans := handleSetCommand_answered b v st cfg oracle hok
            refine ⟨?_, ?_, ?_⟩
            · intro he
              rcases hans.1 he with ⟨hb, hvn, hvf⟩
              exact Or.inr ⟨rfl, by subst hb; rfl, v, rfl, hvn, hvf⟩
            · intro hr
              exact absurd (hans.2.1 hr) (fun h => h)
            · exact hans.2.2
          · have heq : processTokens (a :: b :: v :: rest2) st cfg oracle =
                { config := cfg, sysStatus := st,
                  emits := [.status .CMD_NACK_INVALID_TYPE .none],
                  restart := false, reconfigCalls := 0 } := by
              simp [processTokens, List.get?, hGET, hCTL, hSET]
            rw [heq]
            refine ⟨?_, ?_, ?_⟩
            · intro he; simp at he
            · intro hr; simp at hr
            · intro hc; simp at hc

/-- C9 counterexample: the malformed command `CTL,RELAY,MAYBE` (a `CTL
RELAY` with a value other than `ON`/`OFF`) is answered with no status
frame at all — the Command Task ignores it silently, leaving state
untouched — whereas the claim requires a specific nack. -/
theorem ctlBadValueSilent :
    (processCommand (str "CTL,RELAY,MAYBE") defaultStatus defaultConfig
      (fun _ => CamOutcome.ok)).emits = [] ∧
    (processCommand (str "CTL,RELAY,MAYBE") defaultStatus defaultConfig
      (fun _ => CamOutcome.ok)).sysStatus = defaultStatus ∧
    (processCommand (str "CTL,RELAY,MAYBE") defaultStatus defaultConfig
      (fun _ => CamOutcome.ok)).config = defaultConfig := by decide

/-- C9 (amended): every malformed or out-of-range command input is
answered with a specific nack status frame, except the three inputs the
code ignores silently (`CTL RELAY`/`CTL SSDV` with a value other than
`ON`/`OFF`, and `SET SSDV_TYPE` with a value other than
`NORMAL`/`NOFEC`); no user-input error causes a restart (a restart
requires the well-formed `CTL,SYS,REBOOT`), and camera reconfiguration
is attempted only after a successful validation ack, never in answer to
an error. -/
theorem commandErrorsAnswered (cmd : Str) (st : SystemStatus)
    (cfg : SystemConfig) (oracle : Nat → CamOutcome)
    (hok : oracle 0 = CamOutcome.ok) :
    ((processCommand cmd st cfg oracle).emits = [] →
      silentlyIgnored (tokenize cmd)) ∧
    ((processCommand cmd st cfg oracle).restart = true →
      (tokenize cmd).get? 0 = some (str "CTL") ∧
      (tokenize cmd).get? 1 = some (str "SYS") ∧
      (tokenize cmd).get? 2 = some (str "REBOOT")) ∧
    ((processCommand cmd st cfg oracle).reconfigCalls ≠ 0 →
      ∃ n : Int,
        Output.status .CMD_ACK_CAM_SIZE (.int n) ∈
          (processCommand cmd st cfg oracle).emits ∨
        Output.status .CMD_ACK_CAM_QUALITY (.int n) ∈
          (processCommand cmd st cfg oracle).emits) :=
  processTokens_answered (tokenize cmd) st cfg oracle hok

/-- Witness for `commandErrorsAnswered` at the concrete out-of-range
command `SET,CAM_QUALITY,99`. -/
theorem commandErrorsAnswered_witness :
    ((processCommand (str "SET,CAM_QUALITY,99") defaultStatus defaultConfig
        (fun _ => CamOutcome.ok)).emits = [] →
      silentlyIgnored (tokenize (str "SET,CAM_QUALITY,99"))) ∧
    ((processCommand (str "SET,CAM_QUALITY,99") defaultStatus defaultConfig
        (fun _ => CamOutcome.ok)).restart = true →
      (tokenize (str "SET,CAM_QUALITY,99")).get? 0 = some (str "CTL") ∧
      (tokenize (str "SET,CAM_QUALITY,99")).get? 1 = some (str "SYS") ∧
      (tokenize (str "SET,CAM_QUALITY,99")).get? 2 = some (str "REBOOT")) ∧
    ((processCommand (str "SET,CAM_QUALITY,99") defaultStatus defaultConfig
        (fun _ => CamOutcome.ok)).reconfigCalls ≠ 0 →
      ∃ n : Int,
        Output.status .CMD_ACK_CAM_SIZE (.int n) ∈
          (processCommand (str "SET,CAM_QUALITY,99") defaultStatus defaultConfig
            (fun _ => CamOutcome.ok)).emits ∨
        Output.status .CMD_ACK_CAM_QUALITY (.int n) ∈
          (processCommand (str "SET,CAM_QUALITY,99") defaultStatus defaultConfig
            (fun _ => CamOutcome.ok)).emits) :=
  commandErrorsAnswered (str "SET,CAM_QUALITY,99") defaultStatus defaultConfig
    (fun _ => CamOutcome.ok) rfl

end HAB
